import Mathlib

/-!
Shallow embedding of the logdata service (Go, cmd/server/cmd_server_main.go).

The repository carries two variants of the server source:
* V1 ("account" variant): tenant carried in the X-Account header, handlers
  registered without any authentication middleware, results ordered by id.
* V2 ("contract" variant, the one wired in the Dockerfile via
  CONTRACT_SECRET_KEYS): tenant carried in the JSON body (POST) or the
  contract query parameter (GET), every handler wrapped in authMiddleware,
  results ordered by timestamp.

Machine integers are modelled as Int / Nat (no arithmetic in the claims
overflows).  Go's time.Time is modelled as a Nat instant whose zero value
(time.Time's IsZero) is 0.  JSON body decoding (encoding/json, an external
collaborator) is modelled by giving handlers an `Option LogData`: `none`
is a body that json.Unmarshal / Decode rejects, which includes any body
whose timestamp string is not RFC3339 (time.Time.UnmarshalJSON fails and
the whole decode errors).  The SQLite storage engine is an external
collaborator; its SELECT evaluation is modelled by `runQuery` below.
-/

inductive HttpMethod
  | get
  | post
  | put
deriving DecidableEq

/-- A value handed to db.Query / db.Exec as a bound parameter. -/
inductive SqlArg
  | str (s : String)
  | int (i : Int)
deriving DecidableEq

/-- Model of fmt.Sscanf with a single %d verb: an optional leading minus
sign followed by a non-empty run of decimal digits; anything else fails.
(Sscanf stops at the first non-digit, so trailing text is ignored.)
goHasPfx / goDropStr model strings.HasPrefix and the byte-suffix taken by
strings.TrimPrefix; the prefixes involved are ASCII, so character counts
coincide with Go byte counts. -/
def goHasPfx (p s : String) : Bool :=
  List.isPrefixOf p.data s.data

def goDropStr (s : String) (n : Nat) : String :=
  String.mk (s.data.drop n)

def scanInt (s : String) : Option Int :=
  let cs := s.data
  let neg : Bool := match cs with | c :: _ => c == '-' | [] => false
  let rest := if neg then cs.drop 1 else cs
  let digits := rest.takeWhile Char.isDigit
  if digits.length == 0 then none
  else
    let v : Nat := digits.foldl (fun a c => a * 10 + (c.toNat - 48)) 0
    some (if neg then -(v : Int) else (v : Int))

inductive ValidationError
  | missingFields
  | invalidTimestamp
deriving DecidableEq

/-- The %v rendering of the two errors LogData.Validate can return. -/
def errText : ValidationError → String
  | .missingFields => "missing required fields"
  | .invalidTimestamp => "invalid timestamp"

namespace V2

/-- LogData of the contract variant (struct LogData).  ID is a pointer,
assigned only by storage; Timestamp is a Nat instant (0 = Go zero time). -/
structure LogData where
  id : Option Int := none
  contract : String
  system : String
  user : String
  module : String
  task : String
  timestamp : Nat
  msg : String
  level : Int
deriving DecidableEq

/-- The condition of the first if in LogData.Validate. -/
def requiredEmpty (l : LogData) : Bool :=
  l.contract == "" || l.system == "" || l.user == "" || l.module == "" ||
    l.task == "" || l.msg == ""

/-- LogData.Validate: missing required fields, then zero timestamp. -/
def LogData.Validate (l : LogData) : Except ValidationError Unit :=
  if requiredEmpty l then .error .missingFields
  else if l.timestamp == 0 then .error .invalidTimestamp
  else .ok ()

/-- What the INSERT statement persists: the eight listed columns; the id
column is omitted and assigned by storage. -/
def storedOf (l : LogData) : LogData := { l with id := none }

/-- Shape of the value written by json.NewEncoder(w).Encode(logs) for the
GET response: Go's encoding/json marshals a nil slice (no row was ever
appended) as JSON null, and a non-empty slice as a JSON array. -/
inductive JsonVal
  | null
  | arr (elems : List LogData)
deriving DecidableEq

def goEncodeLogs (logs : List LogData) : JsonVal :=
  if logs.isEmpty then .null else .arr logs

end V2

/-- Response bodies: the literal strings passed to http.Error, the JSON
object written on POST success, or the encoded slice written on GET
success. -/
inductive RespBody
  | text (s : String)
  | jsonMsg (s : String)
  | jsonLogs (v : V2.JsonVal)
deriving DecidableEq

structure Response where
  status : Nat
  body : RespBody
deriving DecidableEq

def methodNotAllowedResp : Response :=
  ⟨405, .text "\x7b\"error\":\"Method not allowed\"\x7d"⟩

def invalidBodyResp : Response :=
  ⟨400, .text "\x7b\"error\":\"Invalid request body\"\x7d"⟩

def authHeaderResp : Response :=
  ⟨401, .text "\x7b\"error\":\"Invalid or missing Authorization header\"\x7d"⟩

def unauthorizedResp : Response :=
  ⟨401, .text "\x7b\"error\":\"Unauthorized: Invalid secret key for contract\"\x7d"⟩

def contractRequiredResp : Response :=
  ⟨400, .text "\x7b\"error\":\"Contract query parameter required\"\x7d"⟩

def validationFailedResp (e : ValidationError) : Response :=
  ⟨400, .text ("\x7b\"error\":\"Validation failed: " ++ errText e ++ "\"\x7d")⟩

def saveFailedResp : Response :=
  ⟨500, .text "\x7b\"error\":\"Failed to save log data\"\x7d"⟩

def fetchFailedResp : Response :=
  ⟨500, .text "\x7b\"error\":\"Failed to fetch log data\"\x7d"⟩

def postSuccessResp : Response :=
  ⟨200, .jsonMsg "Log data saved successfully"⟩

/-- Go map lookup on the parsed CONTRACT_SECRET_KEYS object. -/
def lookupSecret (keys : List (String × String)) (c : String) : Option String :=
  keys.lookup c

/-- Outcome of one POST request: the response written, the resulting
stored table, and whether db.Exec (the INSERT) was invoked at all. -/
structure PostOutcome (α : Type) where
  resp : Response
  store : List α
  execCalled : Bool
deriving DecidableEq

namespace V2

/-- QueryParams for GET /getdata (contract variant), as populated by
handleGetLogData from the URL query. -/
structure QueryParams where
  contract : String
  system : String
  user : String
  module : String
  task : String
  level : Option Int
  startTime : String
  endTime : String
  limit : Option Int
  offset : Option Int
deriving DecidableEq

def baseSelect : String :=
  "SELECT id, contract, system, user, module, task, timestamp, msg, level FROM logData WHERE contract = ?"

/-- The dynamic SQL text and bound-argument list assembled by
handleGetLogData.  Each Go `if` guards one `sqlQuery +=` and one
`args = append(args, ...)` with the same condition; the sequential
mutation of the two variables is rendered as a let chain appending to
each. -/
def buildQuery (p : QueryParams) : String × List SqlArg :=
  let q := baseSelect
  let args : List SqlArg := [SqlArg.str p.contract]
  let q := q ++ (if p.system != "" then " AND system = ?" else "")
  let args := args ++ (if p.system != "" then [SqlArg.str p.system] else [])
  let q := q ++ (if p.user != "" then " AND user = ?" else "")
  let args := args ++ (if p.user != "" then [SqlArg.str p.user] else [])
  let q := q ++ (if p.module != "" then " AND module = ?" else "")
  let args := args ++ (if p.module != "" then [SqlArg.str p.module] else [])
  let q := q ++ (if p.task != "" then " AND task = ?" else "")
  let args := args ++ (if p.task != "" then [SqlArg.str p.task] else [])
  let q := q ++ (match p.level with | some _ => " AND level = ?" | none => "")
  let args := args ++ (match p.level with | some v => [SqlArg.int v] | none => [])
  let q := q ++ (if p.startTime != "" then " AND timestamp >= ?" else "")
  let args := args ++ (if p.startTime != "" then [SqlArg.str p.startTime] else [])
  let q := q ++ (if p.endTime != "" then " AND timestamp <= ?" else "")
  let args := args ++ (if p.endTime != "" then [SqlArg.str p.endTime] else [])
  let q := q ++ " ORDER BY timestamp DESC"
  let q := q ++ (match p.limit with | some l => " LIMIT " ++ toString l | none => "")
  let q := q ++ (match p.offset with | some o => " OFFSET " ++ toString o | none => "")
  (q, args)

/-- Which placeholders are present in the generated text, plus the two
integers that are embedded into the text itself. -/
structure QueryShape where
  hasSystem : Bool
  hasUser : Bool
  hasModule : Bool
  hasTask : Bool
  hasLevel : Bool
  hasStart : Bool
  hasEnd : Bool
  limit : Option Int
  offset : Option Int
deriving DecidableEq

def QueryParams.shape (p : QueryParams) : QueryShape :=
  { hasSystem := p.system != ""
  , hasUser := p.user != ""
  , hasModule := p.module != ""
  , hasTask := p.task != ""
  , hasLevel := p.level.isSome
  , hasStart := p.startTime != ""
  , hasEnd := p.endTime != ""
  , limit := p.limit
  , offset := p.offset }

/-- The ordered list of optional (SQL fragment, bound value) clauses the
builder appends after the mandatory contract predicate. -/
def clauses (p : QueryParams) : List (String × SqlArg) :=
  (if p.system != "" then [(" AND system = ?", SqlArg.str p.system)] else []) ++
  (if p.user != "" then [(" AND user = ?", SqlArg.str p.user)] else []) ++
  (if p.module != "" then [(" AND module = ?", SqlArg.str p.module)] else []) ++
  (if p.task != "" then [(" AND task = ?", SqlArg.str p.task)] else []) ++
  (match p.level with | some v => [(" AND level = ?", SqlArg.int v)] | none => []) ++
  (if p.startTime != "" then [(" AND timestamp >= ?", SqlArg.str p.startTime)] else []) ++
  (if p.endTime != "" then [(" AND timestamp <= ?", SqlArg.str p.endTime)] else [])

/-- Concatenation of the SQL fragments of a clause list. -/
def fragsText : List (String × SqlArg) → String
  | [] => ""
  | c :: cs => c.1 ++ fragsText cs

/-- The constant ORDER BY clause followed by the optional LIMIT/OFFSET
text (the only client-influenced values embedded into the query text). -/
def orderSuffix (p : QueryParams) : String :=
  " ORDER BY timestamp DESC" ++
  (match p.limit with | some l => " LIMIT " ++ toString l | none => "") ++
  (match p.offset with | some o => " OFFSET " ++ toString o | none => "")

end V2

namespace V2

/-- Structured reading of the generated statement: the mandatory contract
equality, one optional value per predicate position, the constant
ORDER BY timestamp DESC, and the pagination pair. -/
structure SqlQuery where
  contract : String
  sysEq : Option String
  userEq : Option String
  moduleEq : Option String
  taskEq : Option String
  levelEq : Option Int
  tsGe : Option String
  tsLe : Option String
  limit : Option Int
  offset : Option Int
deriving DecidableEq

def buildFilter (p : QueryParams) : SqlQuery :=
  { contract := p.contract
  , sysEq := if p.system != "" then some p.system else none
  , userEq := if p.user != "" then some p.user else none
  , moduleEq := if p.module != "" then some p.module else none
  , taskEq := if p.task != "" then some p.task else none
  , levelEq := p.level
  , tsGe := if p.startTime != "" then some p.startTime else none
  , tsLe := if p.endTime != "" then some p.endTime else none
  , limit := p.limit
  , offset := p.offset }

def optFrag {α : Type} (o : Option α) (frag : String) : String :=
  match o with
  | some _ => frag
  | none => ""

def optArg {α : Type} (o : Option α) (g : α → SqlArg) : List SqlArg :=
  match o with
  | some v => [g v]
  | none => []

/-- Rendering a structured query back to text and bound arguments. -/
def renderQuery (s : SqlQuery) : String × List SqlArg :=
  (baseSelect ++ optFrag s.sysEq " AND system = ?" ++ optFrag s.userEq " AND user = ?" ++
      optFrag s.moduleEq " AND module = ?" ++ optFrag s.taskEq " AND task = ?" ++
      optFrag s.levelEq " AND level = ?" ++ optFrag s.tsGe " AND timestamp >= ?" ++
      optFrag s.tsLe " AND timestamp <= ?" ++ " ORDER BY timestamp DESC" ++
      (match s.limit with | some l => " LIMIT " ++ toString l | none => "") ++
      (match s.offset with | some o => " OFFSET " ++ toString o | none => ""),
    [SqlArg.str s.contract] ++ optArg s.sysEq SqlArg.str ++ optArg s.userEq SqlArg.str ++
      optArg s.moduleEq SqlArg.str ++ optArg s.taskEq SqlArg.str ++
      optArg s.levelEq SqlArg.int ++ optArg s.tsGe SqlArg.str ++ optArg s.tsLe SqlArg.str)

/-- Collaborator model of SQLite comparing the stored DATETIME column with
a bound start_time / end_time string: the bound is read as an instant
(digit-prefix model) and compared; an unreadable bound matches nothing. -/
def scanTime (s : String) : Option Nat :=
  let digits := s.data.takeWhile Char.isDigit
  if digits.length == 0 then none
  else some (digits.foldl (fun a c => a * 10 + (c.toNat - 48)) 0)

def timeGeBound (bound : String) (t : Nat) : Bool :=
  match scanTime bound with
  | some b => b ≤ t
  | none => false

def timeLeBound (bound : String) (t : Nat) : Bool :=
  match scanTime bound with
  | some b => t ≤ b
  | none => false

/-- Row satisfaction of the WHERE conjunction of a structured query. -/
def rowMatches (s : SqlQuery) (r : LogData) : Bool :=
  r.contract == s.contract &&
  (match s.sysEq with | some v => r.system == v | none => true) &&
  (match s.userEq with | some v => r.user == v | none => true) &&
  (match s.moduleEq with | some v => r.module == v | none => true) &&
  (match s.taskEq with | some v => r.task == v | none => true) &&
  (match s.levelEq with | some v => r.level == v | none => true) &&
  (match s.tsGe with | some v => timeGeBound v r.timestamp | none => true) &&
  (match s.tsLe with | some v => timeLeBound v r.timestamp | none => true)

/-- Direct statement of which stored records a parameter set selects:
the mandatory tenant equality and one conjunct per supplied parameter. -/
def recordMatches (p : QueryParams) (r : LogData) : Bool :=
  r.contract == p.contract &&
  (if p.system = "" then true else r.system == p.system) &&
  (if p.user = "" then true else r.user == p.user) &&
  (if p.module = "" then true else r.module == p.module) &&
  (if p.task = "" then true else r.task == p.task) &&
  (match p.level with | some v => r.level == v | none => true) &&
  (if p.startTime = "" then true else timeGeBound p.startTime r.timestamp) &&
  (if p.endTime = "" then true else timeLeBound p.endTime r.timestamp)

/-- Stable insertion into a list sorted by timestamp descending. -/
def insertTsDesc (x : LogData) : List LogData → List LogData
  | [] => [x]
  | y :: ys => if y.timestamp < x.timestamp then x :: y :: ys else y :: insertTsDesc x ys

/-- ORDER BY timestamp DESC: newest first. -/
def sortByTsDesc : List LogData → List LogData
  | [] => []
  | x :: xs => insertTsDesc x (sortByTsDesc xs)

/-- Collaborator model of SQLite running the generated SELECT over the
stored table: filter by the WHERE conjunction, order newest first, then
window with OFFSET and LIMIT.  A statement with OFFSET but no LIMIT is a
SQLite syntax error (db.Query fails), modelled as none.  A negative
LIMIT means no limit; a negative OFFSET skips nothing. -/
def runQuery (s : SqlQuery) (store : List LogData) : Option (List LogData) :=
  if s.limit.isNone && s.offset.isSome then none
  else
    let rows := sortByTsDesc (store.filter (rowMatches s))
    let rows := match s.offset with | some o => rows.drop o.toNat | none => rows
    let rows := match s.limit with
      | some l => if l < 0 then rows else rows.take l.toNat
      | none => rows
    some rows

end V2

namespace V2

/-- One incoming HTTP request of the contract variant.  queryGet models
r.URL.Query().Get (empty string when the parameter is absent).  body is
the result of decoding the request body with encoding/json: none when
json.Unmarshal / Decode errors (malformed JSON, or a timestamp string
time.Time cannot parse); the middleware restores the body bytes, so the
handler decodes the same value. -/
structure Request where
  method : HttpMethod
  authHeader : String
  queryGet : String → String
  body : Option LogData

/-- strings.TrimPrefix(authHeader, "Bearer "). -/
def bearerToken (h : String) : String :=
  if goHasPfx "Bearer " h then goDropStr h 7 else h

/-- The contract identifier authMiddleware resolves for a request, or the
error response it writes while resolving it (bad POST body, missing GET
contract parameter).  For any other method the contract stays "". -/
def resolveContract (req : Request) : Except Response String :=
  match req.method with
  | .post =>
    match req.body with
    | none => .error invalidBodyResp
    | some l => .ok l.contract
  | .get =>
    let c := req.queryGet "contract"
    if c == "" then .error contractRequiredResp else .ok c
  | _ => .ok ""

/-- authMiddleware: reject a non-Bearer Authorization value with 401,
resolve the contract, then reject with the single 401 Unauthorized
response when the contract is unknown to the registry or the presented
secret differs from the registered one.  some r = the middleware wrote r
and the wrapped handler never ran; none = the handler runs. -/
def authMiddleware (keys : List (String × String)) (req : Request) : Option Response :=
  if !(goHasPfx "Bearer " req.authHeader) then some authHeaderResp
  else
    match resolveContract req with
    | .error r => some r
    | .ok contract =>
      match lookupSecret keys contract with
      | none => some unauthorizedResp
      | some expectedKey =>
        if bearerToken req.authHeader != expectedKey then some unauthorizedResp
        else none

/-- handlePostLogData (contract variant): method check, body decode,
Validate, then the single INSERT. -/
def handlePostLogData (store : List LogData) (insertOk : Bool) (req : Request) :
    PostOutcome LogData :=
  if req.method != .post then ⟨methodNotAllowedResp, store, false⟩
  else
    match req.body with
    | none => ⟨invalidBodyResp, store, false⟩
    | some l =>
      match l.Validate with
      | .error e => ⟨validationFailedResp e, store, false⟩
      | .ok _ =>
        if insertOk then ⟨postSuccessResp, store ++ [storedOf l], true⟩
        else ⟨saveFailedResp, store, true⟩

/-- The QueryParams handleGetLogData assembles from the URL query.  The
numeric parameters are set only when present and Sscanf succeeds. -/
def getParams (req : Request) : QueryParams :=
  { contract := req.queryGet "contract"
  , system := req.queryGet "system"
  , user := req.queryGet "user"
  , module := req.queryGet "module"
  , task := req.queryGet "task"
  , level := if req.queryGet "level" != "" then scanInt (req.queryGet "level") else none
  , startTime := req.queryGet "start_time"
  , endTime := req.queryGet "end_time"
  , limit := if req.queryGet "limit" != "" then scanInt (req.queryGet "limit") else none
  , offset := if req.queryGet "offset" != "" then scanInt (req.queryGet "offset") else none }

/-- Outcome of one GET request: the response and the (text, args) pair
handed to db.Query, none when no query was ever constructed/executed. -/
structure GetOutcome where
  resp : Response
  queried : Option (String × List SqlArg)
deriving DecidableEq

/-- handleGetLogData (contract variant): method check, parameter parsing,
dynamic query assembly, db.Query, then serialization of the scanned
rows.  Rows are modelled as always scanning cleanly (the skip-on-scan-
error branch is never taken on a well-typed store). -/
def handleGetLogData (store : List LogData) (req : Request) : GetOutcome :=
  if req.method != .get then ⟨methodNotAllowedResp, none⟩
  else
    let p := getParams req
    let qa := buildQuery p
    match runQuery (buildFilter p) store with
    | none => ⟨fetchFailedResp, some qa⟩
    | some logs => ⟨⟨200, .jsonLogs (goEncodeLogs logs)⟩, some qa⟩

/-- The /logdata/ route: authMiddleware wrapping handlePostLogData. -/
def postPipeline (keys : List (String × String)) (store : List LogData)
    (insertOk : Bool) (req : Request) : PostOutcome LogData :=
  match authMiddleware keys req with
  | some r => ⟨r, store, false⟩
  | none => handlePostLogData store insertOk req

/-- The /getdata route: authMiddleware wrapping handleGetLogData. -/
def getPipeline (keys : List (String × String)) (store : List LogData)
    (req : Request) : GetOutcome :=
  match authMiddleware keys req with
  | some r => ⟨r, none⟩
  | none => handleGetLogData store req

end V2

def xAccountRequiredResp : Response :=
  ⟨400, .text "\x7b\"error\":\"X-Account header required\"\x7d"⟩

def accountMismatchResp : Response :=
  ⟨400, .text "\x7b\"error\":\"Account in body must match X-Account header\"\x7d"⟩

namespace V1

/-- LogData of the account variant (struct LogData). -/
structure LogData where
  id : Option Int := none
  account : String
  system : String
  user : String
  module : String
  task : String
  timestamp : Nat
  msg : String
  level : Int
deriving DecidableEq

def requiredEmpty (l : LogData) : Bool :=
  l.account == "" || l.system == "" || l.user == "" || l.module == "" ||
    l.task == "" || l.msg == ""

/-- LogData.Validate of the account variant. -/
def LogData.Validate (l : LogData) : Except ValidationError Unit :=
  if requiredEmpty l then .error .missingFields
  else if l.timestamp == 0 then .error .invalidTimestamp
  else .ok ()

def storedOf (l : LogData) : LogData := { l with id := none }

/-- One incoming POST request of the account variant: xAccount models
r.Header.Get("X-Account") (empty string when absent); body as in V2. -/
structure Request where
  method : HttpMethod
  xAccount : String
  body : Option LogData

/-- handlePostLogData (account variant): method check, X-Account header
check, body decode, Validate, the body/header account equality check,
then the single INSERT.  This variant is registered without any
authentication middleware. -/
def handlePostLogData (store : List LogData) (insertOk : Bool) (req : Request) :
    PostOutcome LogData :=
  if req.method != .post then ⟨methodNotAllowedResp, store, false⟩
  else if req.xAccount == "" then ⟨xAccountRequiredResp, store, false⟩
  else
    match req.body with
    | none => ⟨invalidBodyResp, store, false⟩
    | some l =>
      match l.Validate with
      | .error e => ⟨validationFailedResp e, store, false⟩
      | .ok _ =>
        if l.account != req.xAccount then ⟨accountMismatchResp, store, false⟩
        else if insertOk then ⟨postSuccessResp, store ++ [storedOf l], true⟩
        else ⟨saveFailedResp, store, true⟩

end V1

namespace V2

lemma fragsText_append (a b : List (String × SqlArg)) :
    fragsText (a ++ b) = fragsText a ++ fragsText b := by
  induction a with
  | nil => simp [fragsText, String.empty_append]
  | cons c cs ih => simp [fragsText, ih, String.append_assoc]

/-- buildQuery, described as the base SELECT, the ordered optional clause
fragments, and the ORDER BY / pagination suffix, with the bound argument
list headed by the contract value. -/
lemma buildQuery_characterization (p : QueryParams) :
    (buildQuery p).1 = baseSelect ++ fragsText (clauses p) ++ orderSuffix p ∧
    (buildQuery p).2 = SqlArg.str p.contract :: (clauses p).map Prod.snd := by
  cases hl : p.level <;> cases hli : p.limit <;> cases ho : p.offset <;>
    constructor <;>
      simp [buildQuery, clauses, orderSuffix, fragsText_append,
        apply_ite fragsText, apply_ite (List.map (Prod.snd : String × SqlArg → SqlArg)),
        fragsText, hl, hli, ho, String.append_assoc,
        String.append_empty, String.empty_append]

end V2

namespace V2

/-- The generated query text as a function of the shape alone. -/
def textOfShape (s : QueryShape) : String :=
  baseSelect ++
  (if s.hasSystem then " AND system = ?" else "") ++
  (if s.hasUser then " AND user = ?" else "") ++
  (if s.hasModule then " AND module = ?" else "") ++
  (if s.hasTask then " AND task = ?" else "") ++
  (if s.hasLevel then " AND level = ?" else "") ++
  (if s.hasStart then " AND timestamp >= ?" else "") ++
  (if s.hasEnd then " AND timestamp <= ?" else "") ++
  " ORDER BY timestamp DESC" ++
  (match s.limit with | some l => " LIMIT " ++ toString l | none => "") ++
  (match s.offset with | some o => " OFFSET " ++ toString o | none => "")

lemma buildQuery_text_shape (p : QueryParams) :
    (buildQuery p).1 = textOfShape p.shape := by
  cases hl : p.level <;> cases hli : p.limit <;> cases ho : p.offset <;>
    simp [buildQuery, textOfShape, QueryParams.shape, hl, hli, ho,
      String.append_assoc]

end V2

/-- C6: the retrieval filter always begins with the non-optional predicate
contract = authenticated tenant (the base SELECT ends in WHERE contract = ?
and the contract value heads the bound-argument list); for each optional
parameter that is present and non-empty exactly one predicate fragment is
appended, combined with AND in the fixed order system, user, module, task,
level, timestamp >= start, timestamp <= end, and the bound values follow
in the same order; an absent parameter contributes no predicate. -/
theorem c6_filter_first_predicate_and_fixed_order (p : V2.QueryParams) :
    (V2.buildQuery p).1 =
      V2.baseSelect ++ V2.fragsText (V2.clauses p) ++ V2.orderSuffix p ∧
    (V2.buildQuery p).2 =
      SqlArg.str p.contract :: (V2.clauses p).map Prod.snd :=
  V2.buildQuery_characterization p

/-- C2: the generated query text is a function of the parameter shape
alone (which optional parameters are present, plus the already-parsed
integers limit and offset), so it contains no client-supplied string;
every predicate value is passed in the bound-argument list, contract
first and then one value per present predicate in order. -/
theorem c2_no_client_string_in_query_text (p q : V2.QueryParams)
    (h : p.shape = q.shape) :
    (V2.buildQuery p).1 = (V2.buildQuery q).1 ∧
    (V2.buildQuery p).1 = V2.textOfShape p.shape ∧
    (V2.buildQuery p).2 = SqlArg.str p.contract :: (V2.clauses p).map Prod.snd := by
  refine ⟨?_, V2.buildQuery_text_shape p, (V2.buildQuery_characterization p).2⟩
  rw [V2.buildQuery_text_shape, V2.buildQuery_text_shape, h]

def c2pA : V2.QueryParams :=
  { contract := "cont123", system := "sys456", user := "user789"
  , module := "", task := "", level := some 30
  , startTime := "2025-07-19T00:00:00Z", endTime := ""
  , limit := some 10, offset := some 2 }

def c2pB : V2.QueryParams :=
  { contract := "x OR 1=1", system := "evil UNION SELECT", user := "u"
  , module := "", task := "", level := some 99
  , startTime := "whatever", endTime := ""
  , limit := some 10, offset := some 2 }

theorem c2_no_client_string_in_query_text_witness :
    (V2.buildQuery c2pA).1 = (V2.buildQuery c2pB).1 ∧
    (V2.buildQuery c2pA).1 = V2.textOfShape c2pA.shape ∧
    (V2.buildQuery c2pA).2 =
      SqlArg.str c2pA.contract :: (V2.clauses c2pA).map Prod.snd :=
  c2_no_client_string_in_query_text c2pA c2pB (by decide)

/-- C1: in the middleware-wrapped variant, a request whose Authorization
value is not a bearer credential exactly matching the registered secret
of the request's resolved contract is rejected by authMiddleware with a
401 response; the wrapped handler never runs, so no record validation,
no query construction (queried = none) and no persistence (execCalled =
false, store unchanged) happens, for ingest and retrieve alike. -/
theorem c1_authgate_rejects_before_handlers (keys : List (String × String))
    (store : List V2.LogData) (insertOk : Bool) (req : V2.Request) (c : String)
    (hres : V2.resolveContract req = .ok c)
    (hbad : goHasPfx "Bearer " req.authHeader = false ∨
      lookupSecret keys c ≠ some (V2.bearerToken req.authHeader)) :
    ∃ r : Response, r.status = 401 ∧ V2.authMiddleware keys req = some r ∧
      V2.postPipeline keys store insertOk req = ⟨r, store, false⟩ ∧
      V2.getPipeline keys store req = ⟨r, none⟩ := by
  by_cases hpre : goHasPfx "Bearer " req.authHeader = true
  · rcases hbad with hb | hl
    · rw [hpre] at hb; exact absurd hb (by simp)
    · cases hlook : lookupSecret keys c with
      | none =>
        refine ⟨unauthorizedResp, rfl, ?_, ?_, ?_⟩ <;>
          simp [V2.postPipeline, V2.getPipeline, V2.authMiddleware, hpre, hres, hlook]
      | some k =>
        have hk : V2.bearerToken req.authHeader ≠ k := fun e => hl (by rw [hlook, e])
        refine ⟨unauthorizedResp, rfl, ?_, ?_, ?_⟩ <;>
          simp [V2.postPipeline, V2.getPipeline, V2.authMiddleware, hpre, hres,
            hlook, hk]
  · have hb : goHasPfx "Bearer " req.authHeader = false := by
      revert hpre; cases goHasPfx "Bearer " req.authHeader <;> simp
    exact ⟨authHeaderResp, rfl, by simp [V2.authMiddleware, hb],
      by simp [V2.postPipeline, V2.authMiddleware, hb],
      by simp [V2.getPipeline, V2.authMiddleware, hb]⟩

def c1req : V2.Request :=
  { method := .get, authHeader := "Bearer WRONG"
  , queryGet := fun k => if k == "contract" then "cont123" else ""
  , body := none }

theorem c1_authgate_rejects_before_handlers_witness :
    ∃ r : Response, r.status = 401 ∧
      V2.authMiddleware [("cont123", "secret123")] c1req = some r ∧
      V2.postPipeline [("cont123", "secret123")] [] true c1req = ⟨r, [], false⟩ ∧
      V2.getPipeline [("cont123", "secret123")] [] c1req = ⟨r, none⟩ :=
  c1_authgate_rejects_before_handlers [("cont123", "secret123")] [] true c1req
    "cont123" (by simp [V2.resolveContract, c1req]) (Or.inr (by decide))

/-- C4: a request naming a contract unknown to the registry and a request
naming a known contract with a non-matching secret receive the very same
response value from authMiddleware: the single 401 Unauthorized response,
so the two cases are indistinguishable to the caller. -/
theorem c4_unknown_vs_mismatch_indistinguishable (keys : List (String × String))
    (r1 r2 : V2.Request) (c1 c2 k : String)
    (hp1 : goHasPfx "Bearer " r1.authHeader = true)
    (hp2 : goHasPfx "Bearer " r2.authHeader = true)
    (hr1 : V2.resolveContract r1 = .ok c1)
    (hr2 : V2.resolveContract r2 = .ok c2)
    (hUnknown : lookupSecret keys c1 = none)
    (hKnown : lookupSecret keys c2 = some k)
    (hMismatch : V2.bearerToken r2.authHeader ≠ k) :
    V2.authMiddleware keys r1 = V2.authMiddleware keys r2 ∧
    V2.authMiddleware keys r1 = some unauthorizedResp ∧
    unauthorizedResp.status = 401 := by
  refine ⟨?_, ?_, rfl⟩ <;>
    simp [V2.authMiddleware, hp1, hp2, hr1, hr2, hUnknown, hKnown, hMismatch]

def c4req1 : V2.Request :=
  { method := .get, authHeader := "Bearer secret456"
  , queryGet := fun key => if key == "contract" then "ghost" else ""
  , body := none }

def c4req2 : V2.Request :=
  { method := .get, authHeader := "Bearer secret456"
  , queryGet := fun key => if key == "contract" then "cont123" else ""
  , body := none }

theorem c4_unknown_vs_mismatch_indistinguishable_witness :
    V2.authMiddleware [("cont123", "secret123")] c4req1 =
      V2.authMiddleware [("cont123", "secret123")] c4req2 ∧
    V2.authMiddleware [("cont123", "secret123")] c4req1 = some unauthorizedResp ∧
    unauthorizedResp.status = 401 :=
  c4_unknown_vs_mismatch_indistinguishable [("cont123", "secret123")] c4req1 c4req2
    "ghost" "cont123" "secret123" (by decide) (by decide)
    (by simp [V2.resolveContract, c4req1]) (by simp [V2.resolveContract, c4req2])
    (by decide) (by decide) (by decide)

lemma v1_store_inv (st : List V1.LogData) (ok : Bool) (req : V1.Request)
    (r : V1.LogData)
    (h : (V1.handlePostLogData st ok req).store = st ++ [r]) :
    r.account = req.xAccount := by
  unfold V1.handlePostLogData at h
  split at h
  · simp at h
  · split at h
    · simp at h
    · split at h
      · simp at h
      · rename_i l hbody
        split at h
        · simp at h
        · split at h
          · simp at h
          · split at h
            · rename_i hv hne hok
              simp only [PostOutcome.mk.injEq] at h
              have hr : V1.storedOf l = r := by
                have := List.append_cancel_left h
                simpa using this
              have hacc : l.account = req.xAccount := by
                simp only [bne_iff_ne, Decidable.not_not] at hne
                exact hne
              rw [← hr]
              simpa [V1.storedOf] using hacc
            · simp at h

lemma v2_store_inv (keys : List (String × String)) (st : List V2.LogData)
    (ok : Bool) (req : V2.Request) (r : V2.LogData)
    (h : (V2.postPipeline keys st ok req).store = st ++ [r]) :
    V2.resolveContract req = .ok r.contract := by
  unfold V2.postPipeline at h
  split at h
  · simp at h
  · unfold V2.handlePostLogData at h
    split at h
    · simp at h
    · rename_i hmeth
      split at h
      · simp at h
      · rename_i l hbody
        split at h
        · simp at h
        · split at h
          · rename_i hok
            simp only [PostOutcome.mk.injEq] at h
            have hr : V2.storedOf l = r := by
              have := List.append_cancel_left h
              simpa using this
            have hpost : req.method = HttpMethod.post := by
              revert hmeth
              cases req.method <;> simp
            rw [V2.resolveContract, hpost]
            simp only [hbody]
            rw [← hr]
            rfl
          · simp at h

def c3body1 : V1.LogData :=
  { account := "cont999", system := "sys456", user := "user789"
  , module := "auth", task := "task101", timestamp := 1752926400
  , msg := "User logged in", level := 30 }

def c3rec1 : V1.LogData :=
  { account := "cont123", system := "sys456", user := "user789"
  , module := "auth", task := "task101", timestamp := 1752926400
  , msg := "User logged in", level := 30 }

def c3rec2 : V2.LogData :=
  { contract := "cont123", system := "sys456", user := "user789"
  , module := "auth", task := "task101", timestamp := 1752926400
  , msg := "User logged in", level := 30 }

def c3req1 : V1.Request :=
  { method := .post, xAccount := "cont123", body := some c3body1 }

def c3req1b : V1.Request :=
  { method := .post, xAccount := "cont123", body := some c3rec1 }

def c3req2 : V2.Request :=
  { method := .post, authHeader := "Bearer secret123"
  , queryGet := fun _ => "", body := some c3rec2 }

/-- C3: a record whose tenant field differs from the tenant the caller is
identified by is rejected and nothing is stored.  In the account variant
(where the explicit check lives) an otherwise-valid record whose account
differs from the X-Account header yields the 400 mismatch response with
the store unchanged and no INSERT; and any record either variant actually
appends to the store carries exactly the identified tenant: the X-Account
header value (V1), resp. the contract authMiddleware authenticated (V2,
where the authenticated contract is by construction the body's own). -/
theorem c3_tenant_mismatch_rejected_nothing_stored
    (store1 : List V1.LogData) (ok1 : Bool) (req1 : V1.Request) (l : V1.LogData)
    (hb : req1.body = some l) (hm : req1.method = HttpMethod.post)
    (ha : req1.xAccount ≠ "") (hv : l.Validate = .ok ())
    (hne : l.account ≠ req1.xAccount)
    (st1 : List V1.LogData) (ok1b : Bool) (req1b : V1.Request) (r1 : V1.LogData)
    (h1 : (V1.handlePostLogData st1 ok1b req1b).store = st1 ++ [r1])
    (keys : List (String × String)) (st2 : List V2.LogData) (ok2 : Bool)
    (req2 : V2.Request) (r2 : V2.LogData)
    (h2 : (V2.postPipeline keys st2 ok2 req2).store = st2 ++ [r2]) :
    V1.handlePostLogData store1 ok1 req1 = ⟨accountMismatchResp, store1, false⟩ ∧
    r1.account = req1b.xAccount ∧
    V2.resolveContract req2 = .ok r2.contract := by
  refine ⟨?_, v1_store_inv st1 ok1b req1b r1 h1, v2_store_inv keys st2 ok2 req2 r2 h2⟩
  unfold V1.handlePostLogData
  rw [hm, hb]
  simp [ha, hv, hne]

theorem c3_tenant_mismatch_rejected_nothing_stored_witness :
    V1.handlePostLogData [] true c3req1 = ⟨accountMismatchResp, [], false⟩ ∧
    c3rec1.account = c3req1b.xAccount ∧
    V2.resolveContract c3req2 = .ok c3rec2.contract :=
  c3_tenant_mismatch_rejected_nothing_stored [] true c3req1 c3body1
    (by decide) (by decide) (by decide) (by rfl) (by decide)
    [] true c3req1b c3rec1 (by decide)
    [("cont123", "secret123")] [] true c3req2 c3rec2 (by decide)

lemma v2_post_exec_cases (keys : List (String × String)) (st : List V2.LogData)
    (ok : Bool) (req : V2.Request) :
    ((V2.postPipeline keys st ok req).execCalled = false ∧
      (V2.postPipeline keys st ok req).store = st) ∨
    (V2.postPipeline keys st ok req).resp = postSuccessResp ∨
    (V2.postPipeline keys st ok req).resp = saveFailedResp := by
  unfold V2.postPipeline V2.handlePostLogData
  repeat' split
  all_goals first
    | exact Or.inl ⟨rfl, rfl⟩
    | exact Or.inr (Or.inl rfl)
    | exact Or.inr (Or.inr rfl)

lemma v2_post_store_cases (keys : List (String × String)) (st : List V2.LogData)
    (ok : Bool) (req : V2.Request) :
    (V2.postPipeline keys st ok req).store = st ∨
    (V2.postPipeline keys st ok req).resp = postSuccessResp := by
  unfold V2.postPipeline V2.handlePostLogData
  repeat' split
  all_goals first
    | exact Or.inl rfl
    | exact Or.inr rfl

lemma v1_post_exec_cases (st : List V1.LogData) (ok : Bool) (req : V1.Request) :
    ((V1.handlePostLogData st ok req).execCalled = false ∧
      (V1.handlePostLogData st ok req).store = st) ∨
    (V1.handlePostLogData st ok req).resp = postSuccessResp ∨
    (V1.handlePostLogData st ok req).resp = saveFailedResp := by
  unfold V1.handlePostLogData
  repeat' split
  all_goals first
    | exact Or.inl ⟨rfl, rfl⟩
    | exact Or.inr (Or.inl rfl)
    | exact Or.inr (Or.inr rfl)

lemma v1_post_store_cases (st : List V1.LogData) (ok : Bool) (req : V1.Request) :
    (V1.handlePostLogData st ok req).store = st ∨
    (V1.handlePostLogData st ok req).resp = postSuccessResp := by
  unfold V1.handlePostLogData
  repeat' split
  all_goals first
    | exact Or.inl rfl
    | exact Or.inr rfl

/-- C10: ingestion is atomic on error, in both variants.  Unless the POST
outcome is the success response or the storage-failure response (the only
two outcomes reached after db.Exec), the INSERT was never executed and
the store is unchanged; and the store can only ever change when the
response is the success response.  In particular every error response of
the listed kinds (wrong method, missing tenant, malformed body, failed
validation, tenant mismatch, failed authentication) leaves the stored
state untouched. -/
theorem c10_ingest_atomic_on_error (keys : List (String × String))
    (st2 : List V2.LogData) (ok2 : Bool) (req2 : V2.Request)
    (st1 : List V1.LogData) (ok1 : Bool) (req1 : V1.Request) :
    (((V2.postPipeline keys st2 ok2 req2).execCalled = false ∧
        (V2.postPipeline keys st2 ok2 req2).store = st2) ∨
      (V2.postPipeline keys st2 ok2 req2).resp = postSuccessResp ∨
      (V2.postPipeline keys st2 ok2 req2).resp = saveFailedResp) ∧
    ((V2.postPipeline keys st2 ok2 req2).store = st2 ∨
      (V2.postPipeline keys st2 ok2 req2).resp = postSuccessResp) ∧
    (((V1.handlePostLogData st1 ok1 req1).execCalled = false ∧
        (V1.handlePostLogData st1 ok1 req1).store = st1) ∨
      (V1.handlePostLogData st1 ok1 req1).resp = postSuccessResp ∨
      (V1.handlePostLogData st1 ok1 req1).resp = saveFailedResp) ∧
    ((V1.handlePostLogData st1 ok1 req1).store = st1 ∨
      (V1.handlePostLogData st1 ok1 req1).resp = postSuccessResp) :=
  ⟨v2_post_exec_cases keys st2 ok2 req2, v2_post_store_cases keys st2 ok2 req2,
    v1_post_exec_cases st1 ok1 req1, v1_post_store_cases st1 ok1 req1⟩

/-- C7 (amended): Validate fails with the missing-fields error iff one of
the six required string fields is empty; it fails with the invalid-
timestamp error iff no required field is empty and the timestamp is the
zero value; otherwise it succeeds.  The level and id fields are never
consulted (every integer level is accepted).  A timestamp that cannot be
parsed never reaches Validate: body decoding fails first (see the C7
counterexample). -/
theorem c7_validate_amended (l : V2.LogData) :
    (V2.LogData.Validate l = .error .missingFields ↔ V2.requiredEmpty l = true) ∧
    (V2.LogData.Validate l = .error .invalidTimestamp ↔
      (V2.requiredEmpty l = false ∧ l.timestamp = 0)) ∧
    (V2.LogData.Validate l = .ok () ↔
      (V2.requiredEmpty l = false ∧ l.timestamp ≠ 0)) ∧
    (∀ lvl : Int, V2.LogData.Validate { l with level := lvl } = V2.LogData.Validate l) ∧
    (∀ i : Option Int, V2.LogData.Validate { l with id := i } = V2.LogData.Validate l) := by
  refine ⟨?_, ?_, ?_, fun _ => rfl, fun _ => rfl⟩ <;>
    · unfold V2.LogData.Validate
      cases hre : V2.requiredEmpty l <;>
        cases hts : l.timestamp == 0 <;>
          simp_all [Nat.beq_eq_true_eq]

/-- C7 counterexample: a POST request whose body carries an unparsable
timestamp string (for instance the raw body with every required field
populated but timestamp equal to not-a-time) fails json decoding, so the
server answers 400 invalid-request-body, which is not the
ValidationError(InvalidTimestamp) response the claim requires for a
timestamp that cannot be parsed. -/
theorem c7_unparsable_timestamp_counterexample :
    V2.postPipeline [("cont123", "secret123")] [] true
      { method := .post, authHeader := "Bearer secret123"
      , queryGet := fun _ => "", body := none } =
      ⟨invalidBodyResp, [], false⟩ ∧
    invalidBodyResp ≠ validationFailedResp .invalidTimestamp := by
  exact ⟨by decide, by decide⟩

/-- C9 (amended): a retrieval whose query succeeds and matches no stored
record answers 200, but the body is the Go encoding of the nil slice —
JSON null — not an empty JSON array. -/
theorem c9_empty_result_returns_null (store : List V2.LogData)
    (req : V2.Request) (hm : req.method = HttpMethod.get)
    (hq : V2.runQuery (V2.buildFilter (V2.getParams req)) store = some []) :
    V2.handleGetLogData store req =
      ⟨⟨200, .jsonLogs V2.JsonVal.null⟩, some (V2.buildQuery (V2.getParams req))⟩ := by
  unfold V2.handleGetLogData
  simp [hm, hq, V2.goEncodeLogs]

def c9req : V2.Request :=
  { method := .get, authHeader := "Bearer secret456"
  , queryGet := fun k => if k == "contract" then "cont456" else ""
  , body := none }

theorem c9_empty_result_returns_null_witness :
    V2.handleGetLogData [] c9req =
      ⟨⟨200, .jsonLogs V2.JsonVal.null⟩, some (V2.buildQuery (V2.getParams c9req))⟩ :=
  c9_empty_result_returns_null [] c9req (by decide) (by decide)

/-- C9 counterexample: with the registry of the Dockerfile, a retrieval
authenticated for cont456 over a store holding no cont456 records gets
status 200 with body JSON null, and null is not the empty JSON array the
claim requires. -/
theorem c9_empty_result_counterexample :
    V2.getPipeline [("cont456", "secret456")] [] c9req =
      ⟨⟨200, .jsonLogs V2.JsonVal.null⟩, some (V2.buildQuery (V2.getParams c9req))⟩ ∧
    V2.JsonVal.null ≠ V2.JsonVal.arr [] := by
  exact ⟨by decide, by decide⟩

def okCount (o : V2.GetOutcome) : Nat :=
  match o.resp.body with
  | .jsonLogs (.arr xs) => xs.length
  | _ => 0

def c5req : V2.Request :=
  { method := .get, authHeader := "Bearer secret123"
  , queryGet := fun k => if k == "contract" then "cont123" else ""
  , body := none }

def c5store : List V2.LogData :=
  (List.range 101).map fun i =>
    { contract := "cont123", system := "s", user := "u", module := "m"
    , task := "t", timestamp := i + 1, msg := "x", level := 1 }

set_option maxRecDepth 100000 in
/-- C5 (code evaluated at the failing input): on a retrieval with no
limit and no offset parameter, params.Limit and params.Offset stay nil,
so the generated query ends at ORDER BY timestamp DESC with no LIMIT (or
OFFSET) clause at all — the declared 100 default is dead — and a store
holding 101 matching records produces a 200 response carrying all 101
records, contradicting the claimed at-most-100 bound. -/
theorem c5_missing_limit_default_eval :
    (V2.getParams c5req).limit = none ∧
    (V2.getParams c5req).offset = none ∧
    (V2.buildQuery (V2.getParams c5req)).1 =
      "SELECT id, contract, system, user, module, task, timestamp, msg, level FROM logData WHERE contract = ? ORDER BY timestamp DESC" ∧
    (V2.getPipeline [("cont123", "secret123")] c5store c5req).resp.status = 200 ∧
    okCount (V2.getPipeline [("cont123", "secret123")] c5store c5req) = 101 := by
  refine ⟨by decide, by decide, by decide, by decide, by decide⟩

namespace V2

lemma optFrag_some {α : Type} (x : α) (f : String) : optFrag (some x) f = f := rfl

lemma optFrag_none {α : Type} (f : String) : optFrag (none : Option α) f = "" := rfl

lemma optArg_some {α : Type} (x : α) (g : α → SqlArg) : optArg (some x) g = [g x] := rfl

lemma optArg_none {α : Type} (g : α → SqlArg) : optArg (none : Option α) g = [] := rfl

lemma optFrag_if {α : Type} (c : Prop) [Decidable c] (x : α) (f : String) :
    optFrag (if c then some x else none) f = if c then f else "" := by
  split <;> rfl

lemma optFrag_ifn {α : Type} (c : Prop) [Decidable c] (x : α) (f : String) :
    optFrag (if c then none else some x) f = if c then "" else f := by
  split <;> rfl

lemma optArg_if {α : Type} (c : Prop) [Decidable c] (x : α) (g : α → SqlArg) :
    optArg (if c then some x else none) g = if c then [g x] else [] := by
  split <;> rfl

lemma optArg_ifn {α : Type} (c : Prop) [Decidable c] (x : α) (g : α → SqlArg) :
    optArg (if c then none else some x) g = if c then [] else [g x] := by
  split <;> rfl

/-- The structured query renders back to exactly the text and argument
list the handler assembles, grounding the structured form in the code. -/
lemma renderQuery_buildFilter (p : QueryParams) :
    renderQuery (buildFilter p) = buildQuery p := by
  cases hl : p.level <;> cases hli : p.limit <;> cases ho : p.offset <;>
    simp [renderQuery, buildFilter, buildQuery, optFrag_if, optFrag_ifn,
      optArg_if, optArg_ifn, optFrag_some, optFrag_none, optArg_some,
      optArg_none, hl, hli, ho, String.append_assoc]

/-- The WHERE conjunction of the built query selects exactly the records
matching every supplied parameter. -/
lemma rowMatches_buildFilter (p : QueryParams) (r : LogData) :
    rowMatches (buildFilter p) r = recordMatches p r := by
  unfold rowMatches recordMatches buildFilter
  by_cases hs : p.system = "" <;> by_cases hu : p.user = "" <;>
    by_cases hm2 : p.module = "" <;> by_cases ht : p.task = "" <;>
      by_cases hst : p.startTime = "" <;> by_cases hen : p.endTime = "" <;>
        cases hl : p.level <;> simp [hs, hu, hm2, ht, hst, hen, hl]

end V2

/-- C8: when the caller supplies limit L and offset O (both nonnegative,
as pagination values are), the retrieval response is exactly the first L
elements, starting at position O, of the full newest-first ordering (by
the timestamp column, used consistently in every generated query) of the
records matching the filter. -/
theorem c8_newest_first_ordering_and_pagination (store : List V2.LogData)
    (req : V2.Request) (L O : Int) (hm : req.method = HttpMethod.get)
    (hL : (V2.getParams req).limit = some L)
    (hO : (V2.getParams req).offset = some O)
    (hL0 : 0 ≤ L) (hO0 : 0 ≤ O) :
    (V2.handleGetLogData store req).resp =
      ⟨200, .jsonLogs (V2.goEncodeLogs
        (((V2.sortByTsDesc (store.filter (V2.recordMatches (V2.getParams req)))).drop
            O.toNat).take L.toNat))⟩ := by
  have hfun : V2.rowMatches (V2.buildFilter (V2.getParams req)) =
      V2.recordMatches (V2.getParams req) :=
    funext (V2.rowMatches_buildFilter (V2.getParams req))
  have hbl : (V2.buildFilter (V2.getParams req)).limit = some L := hL
  have hbo : (V2.buildFilter (V2.getParams req)).offset = some O := hO
  have hnl : ¬ L < 0 := not_lt.mpr hL0
  unfold V2.handleGetLogData V2.runQuery
  simp [hm, hbl, hbo, hfun, hnl]

def c8req : V2.Request :=
  { method := .get, authHeader := "Bearer secret123"
  , queryGet := fun k =>
      if k == "contract" then "cont123"
      else if k == "limit" then "2"
      else if k == "offset" then "1"
      else ""
  , body := none }

def c8rec (ts : Nat) : V2.LogData :=
  { contract := "cont123", system := "s", user := "u", module := "m"
  , task := "t", timestamp := ts, msg := "x", level := 1 }

def c8store : List V2.LogData := [c8rec 5, c8rec 9, c8rec 7, c8rec 8]

theorem c8_newest_first_ordering_and_pagination_witness :
    (V2.handleGetLogData c8store c8req).resp =
      ⟨200, .jsonLogs (V2.goEncodeLogs
        (((V2.sortByTsDesc (c8store.filter (V2.recordMatches (V2.getParams c8req)))).drop
            (Int.toNat 1)).take (Int.toNat 2)))⟩ :=
  c8_newest_first_ordering_and_pagination c8store c8req 2 1 (by decide)
    (by decide) (by decide) (by decide) (by decide)
